import Mathlib

/-!
Verification of the GSConnect browser-extension background script and popup.

The development shallowly embeds the JavaScript of the repository:
the background script (session manager for the native-messaging host,
message router, debounced context-menu synchronizer) and the popup's
URL classification.  JavaScript values that may be "any" are modelled
by the inductive `JSValue`; the mutable module-level globals
(`nmhPort`, the debounce timer) become explicit state records; the
browser APIs (ports, listeners, `storage.local`) are modelled as
explicit data that the embedded functions transform.
-/

namespace GSConnect

/-- A JavaScript value, as needed to model the extension's messages and
stored data: `undefined`, `null`, booleans, numbers, strings, arrays and
plain objects (association lists of fields). -/
inductive JSValue where
  | undefined
  | null
  | bool (b : Bool)
  | num (n : Int)
  | str (s : String)
  | arr (elems : List JSValue)
  | obj (fields : List (String × JSValue))

/-- First-match field lookup in a JavaScript object's field list. -/
def lookupField : List (String × JSValue) → String → JSValue
  | [], _ => .undefined
  | (k', v) :: rest, k => if k' = k then v else lookupField rest k

/-- JavaScript property access `v[k]`: defined fields of objects, and
`undefined` for everything else (primitives have no own properties we use). -/
def JSValue.getField : JSValue → String → JSValue
  | .obj fields, k => lookupField fields k
  | _, _ => .undefined

/-- JavaScript truthiness: `undefined`, `null`, `false`, `0` and `""` are
falsy; arrays and objects are always truthy. -/
def JSValue.truthy : JSValue → Bool
  | .undefined => false
  | .null => false
  | .bool b => b
  | .num n => decide (n ≠ 0)
  | .str s => decide (s ≠ "")
  | .arr _ => true
  | .obj _ => true

/-- `typeof v === 'string'`. -/
def JSValue.isStr : JSValue → Bool
  | .str _ => true
  | _ => false

/-- JavaScript strict equality with the boolean `true` (`v === true`). -/
def JSValue.isTrue : JSValue → Bool
  | .bool true => true
  | _ => false

/-- `typeof v === 'object' && v !== null`: arrays and plain objects. -/
def jsIsNonNullObject : JSValue → Bool
  | .arr _ => true
  | .obj _ => true
  | _ => false

/-! ### URL classification -/

/-- `SPECIAL_PROTOCOLS`, identical in the popup script and the background
script. -/
def SPECIAL_PROTOCOLS : List String :=
  ["about:", "chrome:", "chrome-extension:", "edge:", "file:", "moz-extension:"]

/-- JavaScript `s.startsWith(p)`, as a prefix test on the character lists. -/
def jsStartsWith (s p : String) : Bool :=
  p.data.isPrefixOf s.data

/-- Truthiness of an optional string (`!url` in the scripts): `undefined`
and the empty string are falsy. -/
def jsFalsyStr : Option String → Bool
  | none => true
  | some s => decide (s = "")

/-- The popup's `isSpecialUrl` (popup script):
`if (!url) return true; return SPECIAL_PROTOCOLS.some((protocol) => url.startsWith(protocol));` -/
def isSpecialUrl (url : Option String) : Bool :=
  if jsFalsyStr url then true
  else SPECIAL_PROTOCOLS.any fun protocol => jsStartsWith (url.getD "") protocol

/-- The background script's inline classification, used both by
`updateIconState` and by the context-menu rebuild:
`SPECIAL_PROTOCOLS.some((p) => url && url.startsWith(p))`.
Note the truthiness guard sits inside the `some` predicate, so a falsy
(`undefined`/empty) URL makes every disjunct falsy. -/
def bgIsSpecialUrl (url : Option String) : Bool :=
  SPECIAL_PROTOCOLS.any fun p => !jsFalsyStr url && jsStartsWith (url.getD "") p

/-- Enabled/disabled state of the toolbar action icon. -/
inductive IconState where
  | enabled
  | disabled
deriving DecidableEq

/-- `updateIconState` (background script), restricted to its observable
effect on the given tab's icon: disable when the URL is special, enable
otherwise. -/
def updateIconState (url : Option String) : IconState :=
  if bgIsSpecialUrl url then .disabled else .enabled

/-- A context-menu entry as created by the background script. -/
structure MenuEntry where
  id : String
  title : String
  contexts : List String
deriving DecidableEq

/-- `CONTEXT_TYPES` from the background script (the commented-out entries
are not present at runtime). -/
def CONTEXT_TYPES : List String :=
  ["audio", "frame", "image", "link", "page", "video"]

/-- The debounced callback body of `updateContextMenu`: remove all entries,
then create the single `openPopup` entry unless the active tab's URL is
special.  Returns the set of menu entries existing afterwards. -/
def rebuildContextMenu (currentTabUrl : Option String) : List MenuEntry :=
  if bgIsSpecialUrl currentTabUrl then []
  else [{ id := "openPopup", title := "Send with GSConnect", contexts := CONTEXT_TYPES }]

/-! ### Persisted shared state (`browser.storage.local`) -/

/-- The persisted shared record: the two keys the extension ever touches.
A key that was never written holds `none` (reading it yields `undefined`).
Both writes in the background script set both keys at once. -/
structure StorageState where
  devices : Option JSValue
  connected : Option JSValue

/-- The record written by `onNMHDisconnect`:
`{ devices: [], connected: false }`. -/
def storageReset : StorageState :=
  { devices := some (.arr []), connected := some (.bool false) }

/-! ### Console log events (observable side effects of the handlers) -/

/-- The distinct `console` calls of the background script, used to observe
which logging paths a handler takes. -/
inductive LogEvent where
  | errPortNotConnected
  | errPostFailed
  | errInvalidNMHMessage
  | warnUnknownNMHType (t : String)
  | errConnectFailed
  | logRuntimeMessage
  | warnInvalidRuntimeMessage
  | warnShareFromTab
  | errShareSendFailed
  | warnUnknownRuntimeType

/-! ### `sendMessageToNMH` -/

/-- Result of `sendMessageToNMH`: the returned boolean, the messages that
were actually posted on the channel, and the log output. -/
structure SendResult where
  ok : Bool
  posted : List JSValue
  logs : List LogEvent

/-- `sendMessageToNMH(message)`: returns `false` and logs if no port is
open; otherwise posts the message, catching a transport failure
(`transportOk = false` models `postMessage` throwing) as a logged `false`. -/
def sendMessageToNMH (portOpen transportOk : Bool) (message : JSValue) : SendResult :=
  if !portOpen then
    { ok := false, posted := [], logs := [.errPortNotConnected] }
  else if transportOk then
    { ok := true, posted := [message], logs := [] }
  else
    { ok := false, posted := [], logs := [.errPostFailed] }

/-! ### `handleNMHMessage` -/

/-- Observable outcome of `handleNMHMessage`: the storage state afterwards,
the messages posted on the channel, how many times `updateContextMenu` was
triggered, and the log output. -/
structure NMHResult where
  storage : StorageState
  posted : List JSValue
  menuRefreshes : Nat
  logs : List LogEvent

/-- `handleNMHMessage(message)` over starting storage `st`, with the port
and transport status threaded in for the nested `sendMessageToNMH` call.
Mirrors the source: validity check (`!message || typeof message.type !==
'string'`), then a `switch` on `message.type` with cases `'connected'`
(strict `data === true` guard), `'devices'` (unvalidated write of
`message.data` plus one `updateContextMenu()` trigger) and a logging
default. -/
def handleNMHMessage (portOpen transportOk : Bool) (st : StorageState)
    (message : JSValue) : NMHResult :=
  if !message.truthy || !(message.getField "type").isStr then
    { storage := st, posted := [], menuRefreshes := 0, logs := [.errInvalidNMHMessage] }
  else
    match message.getField "type" with
    | .str t =>
      if t = "connected" then
        if (message.getField "data").isTrue then
          let r := sendMessageToNMH portOpen transportOk (.obj [("type", .str "devices")])
          { storage := st, posted := r.posted, menuRefreshes := 0, logs := r.logs }
        else
          { storage := st, posted := [], menuRefreshes := 0, logs := [] }
      else if t = "devices" then
        { storage := { devices := some (message.getField "data"),
                       connected := some (.bool true) },
          posted := [], menuRefreshes := 1, logs := [] }
      else
        { storage := st, posted := [], menuRefreshes := 0, logs := [.warnUnknownNMHType t] }
    | _ =>
      { storage := st, posted := [], menuRefreshes := 0, logs := [.errInvalidNMHMessage] }

/-! ### `handleRuntimeMessage` (message router) -/

/-- Observable outcome of `handleRuntimeMessage`: the messages forwarded to
the channel and the log output.  The router never touches storage. -/
structure RuntimeResult where
  posted : List JSValue
  logs : List LogEvent

/-- `handleRuntimeMessage(message, sender)`, with `senderHasTab` modelling
`sender.tab` being present (the message originated from page content).
Mirrors the source: an unconditional `console.log`, the
`typeof message !== 'object' || message === null` rejection, then a
`switch` on `message.type` with a `'share'` case guarded by `sender.tab`
and a logging default. -/
def handleRuntimeMessage (portOpen transportOk : Bool) (message : JSValue)
    (senderHasTab : Bool) : RuntimeResult :=
  if !jsIsNonNullObject message then
    { posted := [], logs := [.logRuntimeMessage, .warnInvalidRuntimeMessage] }
  else
    match message.getField "type" with
    | .str t =>
      if t = "share" then
        if senderHasTab then
          { posted := [], logs := [.logRuntimeMessage, .warnShareFromTab] }
        else
          let r := sendMessageToNMH portOpen transportOk message
          { posted := r.posted,
            logs := [.logRuntimeMessage] ++ r.logs ++
              (if r.ok then [] else [.errShareSendFailed]) }
      else
        { posted := [], logs := [.logRuntimeMessage, .warnUnknownRuntimeType] }
    | _ =>
      { posted := [], logs := [.logRuntimeMessage, .warnUnknownRuntimeType] }

/-! ### Native-messaging ports and the session-manager state machine -/

/-- The only function the background script registers on a port's
`onMessage` event. -/
inductive MsgListener where
  | handleNMHMessage
deriving DecidableEq

/-- The only function the background script registers on a port's
`onDisconnect` event. -/
inductive DiscListener where
  | onNMHDisconnect
deriving DecidableEq

/-- A native-messaging port as the browser runtime sees it: its identity,
whether it is still connected, and the listeners registered on it.
`disconnect()` flips `connected` off; it never removes listeners. -/
structure Port where
  id : Nat
  connected : Bool
  msgListeners : List MsgListener
  discListeners : List DiscListener
deriving DecidableEq

/-- The world the background script acts on: the module-level `nmhPort`
variable (holding a port id or `null`), every port the runtime has ever
created, an allocator for fresh port ids, and the persisted storage. -/
structure World where
  nmhPort : Option Nat
  ports : List Port
  nextPortId : Nat
  storage : StorageState

/-- The world at background-script load: `nmhPort = null`, no ports
created, nothing ever written to `browser.storage.local`. -/
def initWorld : World :=
  { nmhPort := none, ports := [], nextPortId := 0,
    storage := { devices := none, connected := none } }

/-- `port.disconnect()` on the port with id `pid`: the port is closed.
Its own `onDisconnect` listeners do not fire (they fire only when the
other end disconnects), and its listeners stay registered on the dead
port. -/
def portDisconnect (pid : Nat) (w : World) : World :=
  { w with ports := w.ports.map fun p =>
      if p.id = pid then { p with connected := false } else p }

/-- `browser.runtime.connectNative(APPLICATION_ID)` succeeding: allocates a
fresh connected port with no listeners and returns its id. -/
def connectNative (w : World) : Nat × World :=
  (w.nextPortId,
   { w with
       ports := w.ports ++
         [{ id := w.nextPortId, connected := true, msgListeners := [], discListeners := [] }],
       nextPortId := w.nextPortId + 1 })

/-- `port.onDisconnect.addListener(l)` on the port with id `pid`. -/
def addOnDisconnectListener (pid : Nat) (l : DiscListener) (w : World) : World :=
  { w with ports := w.ports.map fun p =>
      if p.id = pid then { p with discListeners := p.discListeners ++ [l] } else p }

/-- `port.onMessage.addListener(l)` on the port with id `pid`. -/
def addOnMessageListener (pid : Nat) (l : MsgListener) (w : World) : World :=
  { w with ports := w.ports.map fun p =>
      if p.id = pid then { p with msgListeners := p.msgListeners ++ [l] } else p }

/-- `onNMHDisconnect()`: clear the `nmhPort` handle and write
`{ devices: [], connected: false }` to storage. -/
def onNMHDisconnect (w : World) : World :=
  { w with nmhPort := none, storage := storageReset }

/-- `connectToNMH()`: disconnect any existing port, then connect a fresh
one and register the `onNMHDisconnect` and `handleNMHMessage` listeners on
it.  `ok = false` models `connectNative` throwing, in which case the
`catch` handler logs and calls `onNMHDisconnect()` (so `nmhPort` still
holds the old, already-disconnected port when the handler runs). -/
def connectToNMH (ok : Bool) (w : World) : World :=
  let w1 := match w.nmhPort with
    | some pid => portDisconnect pid w
    | none => w
  if ok then
    let pw := connectNative w1
    let w2 := { pw.2 with nmhPort := some pw.1 }
    let w3 := addOnDisconnectListener pw.1 .onNMHDisconnect w2
    addOnMessageListener pw.1 .handleNMHMessage w3
  else
    onNMHDisconnect w1

/-- `connectToNMH()` iterated over a sequence of attempts (`true` = the
native connect succeeded). -/
def runConnects (oks : List Bool) (w : World) : World :=
  oks.foldl (fun w ok => connectToNMH ok w) w

/-- An inbound channel message delivered to `handleNMHMessage`, restricted
to its effect on the world (the storage write). -/
def applyNMHMessage (transportOk : Bool) (msg : JSValue) (w : World) : World :=
  { w with storage := (handleNMHMessage w.nmhPort.isSome transportOk w.storage msg).storage }

/-- The channel events the session manager reacts to. -/
inductive SMEvent where
  | connect (ok : Bool)
  | disconnect
  | nmhMessage (transportOk : Bool) (msg : JSValue)

/-- One session-manager reaction. -/
def smStep (w : World) (e : SMEvent) : World :=
  match e with
  | .connect ok => connectToNMH ok w
  | .disconnect => onNMHDisconnect w
  | .nmhMessage tOk msg => applyNMHMessage tOk msg w

/-- A whole run of session-manager reactions, in delivery order. -/
def smRun (w : World) (es : List SMEvent) : World :=
  es.foldl smStep w

/-- The spec's ConnectionState invariant on the persisted record: whenever
`connected` holds `false`, `devices` holds the empty list. -/
def stateInvariant (st : StorageState) : Prop :=
  st.connected = some (.bool false) → st.devices = some (.arr [])

/-- `initializeState()` restricted to its effect on the world: it calls
`connectToNMH()` and then only queries tabs and sets the icon (no storage
write, no port manipulation). -/
def initializeState (ok : Bool) (w : World) : World :=
  connectToNMH ok w

/-! ### Debounce (`updateContextMenu`) -/

/-- The default `delay` argument of `updateContextMenu`. -/
def DEBOUNCE_DELAY : Nat := 250

/-- The debounce machine of `updateContextMenu`, driven by a trace of
triggers.  A trigger at time `t` with ambient state `s` models one call
`updateContextMenu()`: it runs `clearTimeout` on the pending timer (a
no-op if the timer already fired) and schedules the rebuild callback for
time `t + delay`.  `pend = some (d, s)` is the single pending timer
(`updateContextMenuTimeout`): deadline `d`, and `s` the ambient state —
since the world is single-threaded and changes only at trace events, `s`
is the state the callback will read if it fires before the next trigger.
Trigger times are strictly increasing; a pending timer whose deadline is
at or before the next trigger has already fired.  The result lists the
rebuild executions `(fire time, state read)` in order; any pending timer
left at the end of the trace fires. -/
def runDebounce {S : Type} (delay : Nat) :
    Option (Nat × S) → List (Nat × S) → List (Nat × S)
  | none, [] => []
  | some ds, [] => [ds]
  | none, (t, s) :: ts => runDebounce delay (some (t + delay, s)) ts
  | some (d, s), (t, s') :: ts =>
      if d ≤ t then (d, s) :: runDebounce delay (some (t + delay, s')) ts
      else runDebounce delay (some (t + delay, s')) ts

/-- The port created by the `i`-th successful `connectToNMH` call, carrying
the one message listener and one disconnect listener the function
registers; `alive` records whether it is still connected. -/
def mkPort (i : Nat) (alive : Bool) : Port :=
  { id := i, connected := alive,
    msgListeners := [.handleNMHMessage], discListeners := [.onNMHDisconnect] }

/-- The world after `k` successful `connectToNMH()` calls from `initWorld`:
ports `0 .. k-1` have been created, only the last is still connected, and
`nmhPort` points at it. -/
def worldAfterConnects : Nat → World
  | 0 => initWorld
  | k + 1 =>
    { nmhPort := some k,
      ports := (List.range (k + 1)).map fun i => mkPort i (decide (i = k)),
      nextPortId := k + 1,
      storage := { devices := none, connected := none } }

/-! ## Helper lemmas -/

theorem JSValue.truthy_of_getField_str (m : JSValue) (k s : String)
    (h : m.getField k = .str s) : m.truthy = true := by
  cases m <;> simp_all [JSValue.getField, JSValue.truthy]

theorem JSValue.isTrue_eq_false {v : JSValue} (h : v ≠ .bool true) :
    v.isTrue = false := by
  cases v with
  | bool b =>
    cases b with
    | false => rfl
    | true => exact absurd rfl h
  | undefined => rfl
  | null => rfl
  | num n => rfl
  | str s => rfl
  | arr es => rfl
  | obj fs => rfl

/-! ## Claims -/

/-- C1 (counterexample): the claim that an undefined or empty URL is
classified special in every place the classification is used is false:
the popup's `isSpecialUrl` does classify them special, but the background
script's inline classification — the one driving the toolbar icon and the
context-menu rebuild — classifies them as not special (the truthiness
guard sits inside the `some` predicate), so the icon is enabled and the
menu entry is created for an undefined or empty URL. -/
theorem c1_empty_url_counterexample :
    isSpecialUrl (some "") = true ∧ isSpecialUrl none = true ∧
    bgIsSpecialUrl (some "") = false ∧ bgIsSpecialUrl none = false ∧
    updateIconState (some "") = IconState.enabled ∧
    updateIconState none = IconState.enabled ∧
    rebuildContextMenu none =
      [{ id := "openPopup", title := "Send with GSConnect", contexts := CONTEXT_TYPES }] :=
  ⟨rfl, rfl, rfl, rfl, rfl, rfl, rfl⟩

/-- C1 (amended): classification is a pure function of the URL string and,
for every nonempty URL, all use sites agree: the URL is special exactly
when it starts with one of the six fixed special protocols, the toolbar
icon is disabled exactly on special URLs and the context-menu entry is
created exactly on non-special ones.  An undefined or empty URL is
classified special by the popup's `isSpecialUrl` only; the background's
icon-state and menu-rebuild classification treats it as not special. -/
theorem c1_url_classification (u : String) (hu : u ≠ "") :
    isSpecialUrl (some u) = SPECIAL_PROTOCOLS.any (fun p => jsStartsWith u p) ∧
    bgIsSpecialUrl (some u) = isSpecialUrl (some u) ∧
    updateIconState (some u) =
      (if isSpecialUrl (some u) then IconState.disabled else IconState.enabled) ∧
    rebuildContextMenu (some u) =
      (if isSpecialUrl (some u) then []
       else [{ id := "openPopup", title := "Send with GSConnect", contexts := CONTEXT_TYPES }]) ∧
    isSpecialUrl none = true ∧ isSpecialUrl (some "") = true := by
  have hf : jsFalsyStr (some u) = false := by simp [jsFalsyStr, hu]
  refine ⟨?_, ?_, ?_, ?_, rfl, rfl⟩
  · simp [isSpecialUrl, hf, Option.getD]
  · simp [bgIsSpecialUrl, isSpecialUrl, hf, Option.getD]
  · simp [updateIconState, bgIsSpecialUrl, isSpecialUrl, hf, Option.getD]
  · simp [rebuildContextMenu, bgIsSpecialUrl, isSpecialUrl, hf, Option.getD]

theorem c1_url_classification_witness :
    ("https://example.com" : String) ≠ "" ∧
    bgIsSpecialUrl (some "https://example.com") = isSpecialUrl (some "https://example.com") :=
  ⟨by decide, (c1_url_classification "https://example.com" (by decide)).2.1⟩

/-- C4: whenever the channel disconnects (`onNMHDisconnect` fires), and
whenever an attempt to open the channel fails (`connectToNMH` with a
throwing `connectNative`), the `nmhPort` handle is cleared and the
persisted record becomes exactly `{ devices: [], connected: false }`,
regardless of the prior world. -/
theorem c4_disconnect_resets_state (w : World) :
    (onNMHDisconnect w).nmhPort = none ∧
    (onNMHDisconnect w).storage = storageReset ∧
    (connectToNMH false w).nmhPort = none ∧
    (connectToNMH false w).storage = storageReset :=
  ⟨rfl, rfl, rfl, rfl⟩

/-- C6: handling an inbound wire message `{type:'devices', data:[d1,d2]}`
writes exactly `{devices:[d1,d2], connected:true}` to the persisted record
and triggers exactly one context-menu refresh (and posts nothing). -/
theorem c6_devices_message (portOpen transportOk : Bool) (st : StorageState)
    (message d1 d2 : JSValue)
    (htype : message.getField "type" = .str "devices")
    (hdata : message.getField "data" = .arr [d1, d2]) :
    (handleNMHMessage portOpen transportOk st message).storage =
      { devices := some (.arr [d1, d2]), connected := some (.bool true) } ∧
    (handleNMHMessage portOpen transportOk st message).menuRefreshes = 1 ∧
    (handleNMHMessage portOpen transportOk st message).posted = [] := by
  have ht := JSValue.truthy_of_getField_str message "type" "devices" htype
  simp [handleNMHMessage, ht, htype, hdata, JSValue.isStr]

theorem c6_devices_message_witness :
    ((JSValue.obj [("type", .str "devices"),
        ("data", .arr [.str "phoneA", .str "phoneB"])]).getField "type" = .str "devices") ∧
    ((JSValue.obj [("type", .str "devices"),
        ("data", .arr [.str "phoneA", .str "phoneB"])]).getField "data" =
      .arr [.str "phoneA", .str "phoneB"]) ∧
    ((handleNMHMessage true true { devices := none, connected := none }
        (.obj [("type", .str "devices"), ("data", .arr [.str "phoneA", .str "phoneB"])])).storage =
      { devices := some (.arr [.str "phoneA", .str "phoneB"]),
        connected := some (.bool true) } ∧
     (handleNMHMessage true true { devices := none, connected := none }
        (.obj [("type", .str "devices"), ("data", .arr [.str "phoneA", .str "phoneB"])])).menuRefreshes = 1 ∧
     (handleNMHMessage true true { devices := none, connected := none }
        (.obj [("type", .str "devices"), ("data", .arr [.str "phoneA", .str "phoneB"])])).posted = []) :=
  ⟨rfl, rfl, c6_devices_message true true { devices := none, connected := none } _ _ _ rfl rfl⟩

/-- C8: handling an inbound wire message `{type:'connected', data:true}`
performs exactly one `sendMessageToNMH({type:'devices'})` call (the
handler's entire channel output is that one send), so with the channel
open and the transport healthy exactly one `{type:'devices'}` request is
posted; the record and the menu are untouched in every case. -/
theorem c8_connected_true_requests_devices (portOpen transportOk : Bool)
    (st : StorageState) (message : JSValue)
    (htype : message.getField "type" = .str "connected")
    (hdata : message.getField "data" = .bool true) :
    (handleNMHMessage portOpen transportOk st message).posted =
      (sendMessageToNMH portOpen transportOk (.obj [("type", .str "devices")])).posted ∧
    (handleNMHMessage true true st message).posted = [.obj [("type", .str "devices")]] ∧
    (handleNMHMessage portOpen transportOk st message).storage = st ∧
    (handleNMHMessage portOpen transportOk st message).menuRefreshes = 0 := by
  have ht := JSValue.truthy_of_getField_str message "type" "connected" htype
  refine ⟨?_, ?_, ?_, ?_⟩ <;>
    simp [handleNMHMessage, ht, htype, hdata, sendMessageToNMH, JSValue.isStr, JSValue.isTrue]

theorem c8_connected_true_requests_devices_witness :
    ((JSValue.obj [("type", .str "connected"), ("data", .bool true)]).getField "type" =
      .str "connected") ∧
    ((JSValue.obj [("type", .str "connected"), ("data", .bool true)]).getField "data" =
      .bool true) ∧
    ((handleNMHMessage true true { devices := none, connected := none }
        (.obj [("type", .str "connected"), ("data", .bool true)])).posted =
      (sendMessageToNMH true true (.obj [("type", .str "devices")])).posted ∧
     (handleNMHMessage true true { devices := none, connected := none }
        (.obj [("type", .str "connected"), ("data", .bool true)])).posted =
      [.obj [("type", .str "devices")]] ∧
     (handleNMHMessage true true { devices := none, connected := none }
        (.obj [("type", .str "connected"), ("data", .bool true)])).storage =
      { devices := none, connected := none } ∧
     (handleNMHMessage true true { devices := none, connected := none }
        (.obj [("type", .str "connected"), ("data", .bool true)])).menuRefreshes = 0) :=
  ⟨rfl, rfl,
   c8_connected_true_requests_devices true true { devices := none, connected := none } _ rfl rfl⟩

/-- C10: handling an inbound wire message `{type:'connected'}` whose data
field is anything other than the boolean `true` (strict equality in the
source) posts nothing, leaves the persisted record unchanged and triggers
no menu refresh — in particular it does not transition to disconnected. -/
theorem c10_connected_nontrue_is_noop (portOpen transportOk : Bool)
    (st : StorageState) (message : JSValue)
    (htype : message.getField "type" = .str "connected")
    (hdata : message.getField "data" ≠ .bool true) :
    (handleNMHMessage portOpen transportOk st message).storage = st ∧
    (handleNMHMessage portOpen transportOk st message).posted = [] ∧
    (handleNMHMessage portOpen transportOk st message).menuRefreshes = 0 := by
  have ht := JSValue.truthy_of_getField_str message "type" "connected" htype
  have hd := JSValue.isTrue_eq_false hdata
  simp [handleNMHMessage, ht, htype, hd, JSValue.isStr]

theorem c10_connected_nontrue_is_noop_witness :
    ((JSValue.obj [("type", .str "connected"), ("data", .bool false)]).getField "type" =
      .str "connected") ∧
    ((JSValue.obj [("type", .str "connected"), ("data", .bool false)]).getField "data" ≠
      .bool true) ∧
    ((handleNMHMessage true true storageReset
        (.obj [("type", .str "connected"), ("data", .bool false)])).storage = storageReset ∧
     (handleNMHMessage true true storageReset
        (.obj [("type", .str "connected"), ("data", .bool false)])).posted = [] ∧
     (handleNMHMessage true true storageReset
        (.obj [("type", .str "connected"), ("data", .bool false)])).menuRefreshes = 0) :=
  ⟨rfl, fun h => Bool.noConfusion (JSValue.bool.inj h),
   c10_connected_nontrue_is_noop true true storageReset _ rfl
     (fun h => Bool.noConfusion (JSValue.bool.inj h))⟩

/-- C3: the message router never forwards anything to the channel when the
sender has a tab (content origin), whatever the message; and an internal
`share` message from a privileged (tab-less) sender, with the channel open
and the transport healthy, is forwarded verbatim to the channel. -/
theorem c3_share_routing (message : JSValue) (portOpen transportOk : Bool) :
    (handleRuntimeMessage portOpen transportOk message true).posted = [] ∧
    (jsIsNonNullObject message = true →
      message.getField "type" = .str "share" →
      (handleRuntimeMessage true true message false).posted = [message]) := by
  constructor
  · unfold handleRuntimeMessage
    split
    · rfl
    · split
      · split <;> rfl
      · rfl
  · intro ho htype
    simp [handleRuntimeMessage, ho, htype, sendMessageToNMH]

theorem c3_share_routing_witness :
    (jsIsNonNullObject (JSValue.obj [("type", .str "share"),
        ("data", .obj [("device", .str "d1"), ("url", .str "https://example.com"),
          ("action", .str "share")])]) = true) ∧
    ((handleRuntimeMessage true true (JSValue.obj [("type", .str "share"),
        ("data", .obj [("device", .str "d1"), ("url", .str "https://example.com"),
          ("action", .str "share")])]) true).posted = []) ∧
    ((handleRuntimeMessage true true (JSValue.obj [("type", .str "share"),
        ("data", .obj [("device", .str "d1"), ("url", .str "https://example.com"),
          ("action", .str "share")])]) false).posted =
      [JSValue.obj [("type", .str "share"),
        ("data", .obj [("device", .str "d1"), ("url", .str "https://example.com"),
          ("action", .str "share")])]]) :=
  ⟨rfl,
   (c3_share_routing (JSValue.obj [("type", .str "share"),
      ("data", .obj [("device", .str "d1"), ("url", .str "https://example.com"),
        ("action", .str "share")])]) true true).1,
   (c3_share_routing (JSValue.obj [("type", .str "share"),
      ("data", .obj [("device", .str "d1"), ("url", .str "https://example.com"),
        ("action", .str "share")])]) true true).2 rfl rfl⟩

/-- C7 (counterexample): the claim that a recognized-type message of
unrecognized shape leaves the record unchanged is false: a
`{type:'devices', data:42}` message — recognized type, data not a device
array — overwrites the persisted record with `{devices:42,
connected:true}`, because the `'devices'` case performs no shape
validation on `message.data`. -/
theorem c7_malformed_devices_counterexample :
    (handleNMHMessage true true { devices := some (.arr []), connected := some (.bool false) }
        (.obj [("type", .str "devices"), ("data", .num 42)])).storage ≠
      { devices := some (.arr []), connected := some (.bool false) } := by
  intro h
  have e : (handleNMHMessage true true
      { devices := some (.arr []), connected := some (.bool false) }
      (.obj [("type", .str "devices"), ("data", .num 42)])).storage =
      { devices := some (.num 42), connected := some (.bool true) } := rfl
  rw [e] at h
  simp [StorageState.mk.injEq] at h

/-- C7 (amended): every inbound wire message that fails the validity check
(falsy, or without a string `type`) and every message whose `type` string
is unknown is logged (exactly one log entry) and dropped: the persisted
record is unchanged, nothing is posted and no menu refresh is triggered.
Recognized types are, however, not shape-validated further: a
`'connected'` message whose data is not `true` is dropped silently, and a
`'devices'` message stores whatever its data field holds. -/
theorem c7_unknown_message_dropped (portOpen transportOk : Bool)
    (st : StorageState) (message : JSValue)
    (h : message.truthy = false ∨ (message.getField "type").isStr = false ∨
      ∃ t, message.getField "type" = .str t ∧ t ≠ "connected" ∧ t ≠ "devices") :
    (handleNMHMessage portOpen transportOk st message).storage = st ∧
    (handleNMHMessage portOpen transportOk st message).posted = [] ∧
    (handleNMHMessage portOpen transportOk st message).menuRefreshes = 0 ∧
    (handleNMHMessage portOpen transportOk st message).logs.length = 1 := by
  rcases h with h | h | ⟨t, ht, hc, hd⟩
  · simp [handleNMHMessage, h]
  · simp [handleNMHMessage, h]
  · have htr := JSValue.truthy_of_getField_str message "type" t ht
    simp [handleNMHMessage, htr, ht, hc, hd, JSValue.isStr]

theorem c7_unknown_message_dropped_witness :
    ((JSValue.obj [("type", .str "bogus")]).truthy = false ∨
      ((JSValue.obj [("type", .str "bogus")]).getField "type").isStr = false ∨
      ∃ t, (JSValue.obj [("type", .str "bogus")]).getField "type" = .str t ∧
        t ≠ "connected" ∧ t ≠ "devices") ∧
    ((handleNMHMessage true true { devices := none, connected := none }
        (.obj [("type", .str "bogus")])).storage = { devices := none, connected := none } ∧
     (handleNMHMessage true true { devices := none, connected := none }
        (.obj [("type", .str "bogus")])).posted = [] ∧
     (handleNMHMessage true true { devices := none, connected := none }
        (.obj [("type", .str "bogus")])).menuRefreshes = 0 ∧
     (handleNMHMessage true true { devices := none, connected := none }
        (.obj [("type", .str "bogus")])).logs.length = 1) :=
  ⟨Or.inr (Or.inr ⟨"bogus", rfl, by decide, by decide⟩),
   c7_unknown_message_dropped true true { devices := none, connected := none } _
     (Or.inr (Or.inr ⟨"bogus", rfl, by decide, by decide⟩))⟩

/-- C5 (counterexample): the claimed startup write does not exist: after a
startup (`initializeState`) with a successfully opened channel, neither
key of the persisted record has ever been written — the record is not
created as `{devices:[], connected:false}`.  (Only a failed channel open
would reset it, via `onNMHDisconnect`.) -/
theorem c5_startup_counterexample :
    (initializeState true initWorld).storage = { devices := none, connected := none } ∧
    ({ devices := none, connected := none } : StorageState) ≠ storageReset := by
  refine ⟨rfl, fun h => ?_⟩
  simp [storageReset, StorageState.mk.injEq] at h

theorem handleNMHMessage_storage_invariant (portOpen transportOk : Bool)
    (st : StorageState) (msg : JSValue) (hst : stateInvariant st) :
    stateInvariant (handleNMHMessage portOpen transportOk st msg).storage := by
  unfold handleNMHMessage
  split
  · exact hst
  · split
    · next t heq =>
      by_cases hc : t = "connected"
      · subst hc
        rw [if_pos rfl]
        cases hdata : (msg.getField "data").isTrue <;>
          simp only [hdata, Bool.false_eq_true, reduceIte] <;> exact hst
      · by_cases hd : t = "devices"
        · simp only [hc, hd, if_neg, if_pos rfl, reduceIte]
          intro h
          exact absurd (Option.some.inj h) (fun h2 => Bool.noConfusion (JSValue.bool.inj h2))
        · simp only [hc, hd, reduceIte]
          exact hst
    · exact hst

theorem connectToNMH_storage (ok : Bool) (w : World) :
    (connectToNMH ok w).storage = if ok then w.storage else storageReset := by
  cases h : w.nmhPort <;> cases ok <;>
    simp [connectToNMH, connectNative, addOnDisconnectListener, addOnMessageListener,
      portDisconnect, onNMHDisconnect, h]

theorem smStep_invariant (w : World) (e : SMEvent) (hw : stateInvariant w.storage) :
    stateInvariant (smStep w e).storage := by
  cases e with
  | connect ok =>
    show stateInvariant (connectToNMH ok w).storage
    rw [connectToNMH_storage]
    cases ok with
    | true => simpa using hw
    | false =>
      intro h
      rfl
  | disconnect =>
    intro h
    rfl
  | nmhMessage tOk msg =>
    exact handleNMHMessage_storage_invariant _ tOk w.storage msg hw

/-- C5 (amended): there is no startup write of the record (see the
counterexample), but every write the session manager performs preserves
the invariant that a record holding `connected = false` holds
`devices = []`; hence from any world whose record satisfies the invariant
— including the initial world, where neither key was ever written — every
world reachable through session-manager reactions satisfies it. -/
theorem c5_invariant_preserved (es : List SMEvent) (w : World)
    (hw : stateInvariant w.storage) : stateInvariant (smRun w es).storage := by
  induction es generalizing w with
  | nil => exact hw
  | cons e es ih => exact ih (smStep w e) (smStep_invariant w e hw)

theorem c5_invariant_preserved_witness :
    stateInvariant initWorld.storage ∧
    stateInvariant (smRun initWorld
      [SMEvent.connect true,
       SMEvent.nmhMessage true (.obj [("type", .str "devices"), ("data", .arr [])]),
       SMEvent.disconnect]).storage :=
  ⟨fun h => Option.noConfusion h,
   c5_invariant_preserved
     [SMEvent.connect true,
      SMEvent.nmhMessage true (.obj [("type", .str "devices"), ("data", .arr [])]),
      SMEvent.disconnect]
     initWorld (fun h => Option.noConfusion h)⟩

theorem connectToNMH_true_worldAfter (k : Nat) :
    connectToNMH true (worldAfterConnects k) = worldAfterConnects (k + 1) := by
  cases k with
  | zero => rfl
  | succ m =>
    simp only [connectToNMH, worldAfterConnects, portDisconnect, connectNative,
      addOnDisconnectListener, addOnMessageListener, if_true]
    simp only [World.mk.injEq, true_and, and_true, eq_self_iff_true]
    simp only [List.map_append, List.map_map, List.map_cons, List.map_nil]
    rw [show List.range (m + 1 + 1) = List.range (m + 1) ++ [m + 1] from
      List.range_succ (m + 1)]
    rw [List.map_append]
    congr 1
    · apply List.map_congr_left
      intro i hi
      have him : i < m + 1 := List.mem_range.mp hi
      have h1 : i ≠ m + 1 := by omega
      by_cases h2 : i = m
      · subst h2
        simp [mkPort, Function.comp, h1]
      · simp [mkPort, Function.comp, h1, h2]
    · simp [mkPort, Function.comp]

theorem runConnects_replicate (k j : Nat) :
    runConnects (List.replicate k true) (worldAfterConnects j) =
      worldAfterConnects (j + k) := by
  induction k generalizing j with
  | zero => rfl
  | succ n ih =>
    rw [List.replicate_succ]
    show runConnects (List.replicate n true)
      (connectToNMH true (worldAfterConnects j)) = _
    rw [connectToNMH_true_worldAfter, ih (j + 1)]
    congr 1
    omega

theorem worldAfter_filter_connected (k : Nat) :
    ((worldAfterConnects (k + 1)).ports.filter fun p => p.connected) =
      [mkPort k true] := by
  show (((List.range (k + 1)).map fun i => mkPort i (decide (i = k))).filter
    fun p => p.connected) = [mkPort k true]
  rw [show List.range (k + 1) = List.range k ++ [k] from List.range_succ k]
  rw [List.map_append, List.filter_append]
  have h1 : (((List.range k).map fun i => mkPort i (decide (i = k))).filter
      fun p => p.connected) = [] := by
    rw [List.filter_eq_nil_iff]
    intro p hp
    rw [List.mem_map] at hp
    obtain ⟨i, hi, rfl⟩ := hp
    have : i ≠ k := Nat.ne_of_lt (List.mem_range.mp hi)
    simp [mkPort, this]
  rw [h1]
  simp [mkPort]

/-- C2: for every nonempty sequence of `connectToNMH()` calls in which each
native connect succeeds — in particular two calls in immediate succession
— exactly one port to the native process is connected afterwards, it is
the port `nmhPort` points at, and it carries exactly one message listener
(`handleNMHMessage`) and exactly one disconnect listener
(`onNMHDisconnect`): no duplicate listeners accumulate across
reconnections. -/
theorem c2_single_channel_single_listeners (oks : List Bool) (hne : oks ≠ [])
    (hok : ∀ b ∈ oks, b = true) :
    ((runConnects oks initWorld).ports.filter fun p => p.connected) =
      [{ id := oks.length - 1, connected := true,
         msgListeners := [.handleNMHMessage],
         discListeners := [.onNMHDisconnect] }] ∧
    (runConnects oks initWorld).nmhPort = some (oks.length - 1) := by
  obtain ⟨n, hn⟩ : ∃ n, oks.length = n + 1 := by
    cases oks with
    | nil => exact absurd rfl hne
    | cons a l => exact ⟨l.length, rfl⟩
  rw [List.eq_replicate_of_mem hok, hn]
  rw [show initWorld = worldAfterConnects 0 from rfl]
  rw [show runConnects (List.replicate (n + 1) true) (worldAfterConnects 0) =
    worldAfterConnects (0 + (n + 1)) from runConnects_replicate (n + 1) 0]
  rw [Nat.zero_add]
  refine ⟨?_, ?_⟩
  · have h := worldAfter_filter_connected n
    simpa [mkPort] using h
  · simp [worldAfterConnects]

theorem c2_single_channel_single_listeners_witness :
    ([true, true] ≠ ([] : List Bool)) ∧ (∀ b ∈ [true, true], b = true) ∧
    (((runConnects [true, true] initWorld).ports.filter fun p => p.connected) =
      [{ id := 1, connected := true, msgListeners := [.handleNMHMessage],
         discListeners := [.onNMHDisconnect] }] ∧
     (runConnects [true, true] initWorld).nmhPort = some 1) :=
  ⟨by decide, by decide, c2_single_channel_single_listeners [true, true] (by decide) (by decide)⟩

theorem runDebounce_within_window {S : Type} (delay : Nat) :
    ∀ (ts : List (Nat × S)) (t1 : Nat) (s1 : S),
      List.Chain (fun a b => a.1 < b.1 ∧ b.1 < a.1 + delay) (t1, s1) ts →
      runDebounce delay (some (t1 + delay, s1)) ts =
        [((((t1, s1) :: ts).getLast (List.cons_ne_nil _ _)).1 + delay,
          (((t1, s1) :: ts).getLast (List.cons_ne_nil _ _)).2)]
  | [], _, _, _ => rfl
  | (t2, s2) :: ts, t1, s1, hwin => by
    rw [List.chain_cons] at hwin
    have hlt : ¬(t1 + delay ≤ t2) := by
      have := hwin.1.2
      omega
    have hrec := runDebounce_within_window delay ts t2 s2 hwin.2
    rw [show runDebounce delay (some (t1 + delay, s1)) ((t2, s2) :: ts) =
      if t1 + delay ≤ t2 then
        (t1 + delay, s1) :: runDebounce delay (some (t2 + delay, s2)) ts
      else runDebounce delay (some (t2 + delay, s2)) ts from rfl]
    rw [if_neg hlt, hrec]
    rw [List.getLast_cons (List.cons_ne_nil _ _)]

/-- C9: for any burst of `N ≥ 1` `updateContextMenu()` triggers, each
arriving strictly within `delay` of the previous one, exactly one menu
rebuild executes, and it fires at the last trigger's deadline, reading the
state current at the last trigger.  (The model keeps the pending timer in
an `Option`, so at most one pending debounce timer exists at any moment;
each trigger cancels and replaces it.) -/
theorem c9_debounce_coalesces {S : Type} (delay t1 : Nat) (s1 : S)
    (ts : List (Nat × S))
    (hwin : List.Chain (fun a b => a.1 < b.1 ∧ b.1 < a.1 + delay) (t1, s1) ts) :
    runDebounce delay none ((t1, s1) :: ts) =
      [((((t1, s1) :: ts).getLast (List.cons_ne_nil _ _)).1 + delay,
        (((t1, s1) :: ts).getLast (List.cons_ne_nil _ _)).2)] :=
  runDebounce_within_window delay ts t1 s1 hwin

theorem c9_debounce_coalesces_witness :
    List.Chain (fun a b : Nat × String => a.1 < b.1 ∧ b.1 < a.1 + DEBOUNCE_DELAY)
      (0, "stateA") [(100, "stateB"), (200, "stateC")] ∧
    runDebounce DEBOUNCE_DELAY none
      [((0 : Nat), "stateA"), (100, "stateB"), (200, "stateC")] = [(450, "stateC")] := by
  have hchain : List.Chain (fun a b : Nat × String => a.1 < b.1 ∧ b.1 < a.1 + DEBOUNCE_DELAY)
      (0, "stateA") [(100, "stateB"), (200, "stateC")] :=
    List.Chain.cons (by decide) (List.Chain.cons (by decide) List.Chain.nil)
  refine ⟨hchain, ?_⟩
  have h := c9_debounce_coalesces DEBOUNCE_DELAY 0 "stateA"
    [(100, "stateB"), (200, "stateC")] hchain
  exact h

end GSConnect
